import Mathlib

/-!
# Hybrid decision engine — shallow embedding

A shallow embedding of the hybrid fraud/credit decision engine of this
repository, centred on `fraud_detection_system/fraud_analyzer.py` with the
two routines of `loan_application_processing/credit_scoring.py` that the
verified properties also touch (`_parse_ai_response`, `_estimate_interest_rate`).

Modelling conventions:
* Python `float` arithmetic is modelled exactly over `ℚ`; rounding of binary
  floating point is abstracted away (the spec itself asks only for equality
  "within floating-point tolerance").
* Python strings are `List Char`; `str.find`/`rfind` return `-1` as in Python
  and slices follow Python's negative-index semantics.
* The wall clock (`datetime.now()`) and the PRNG (`random.uniform`) are passed
  in as explicit arguments, so that dependence on them is visible.
* `json.loads` is modelled by an executable recursive-descent parser for the
  JSON subset exercised by the engine's payloads (numbers without exponents,
  strings without escape sequences, booleans, null, arrays, objects); inputs
  outside the subset decode to `none`, never to a wrong value.
* Dictionary fields of the Python results that no verified property mentions
  (free-text explanations, indicator lists, score breakdowns) are not carried
  in the result records; every scored/branching field is.
-/

namespace HybridEngine

/-- A Python/JSON value as produced by `json.loads`: null, booleans, numbers
(modelled exactly as rationals), strings (as character lists), arrays and
objects (ordered field lists; later duplicate keys shadow earlier ones as in
a Python dict). -/
inductive JVal : Type where
  | null : JVal
  | bool (b : Bool) : JVal
  | num (q : ℚ) : JVal
  | str (s : List Char) : JVal
  | arr (xs : List JVal) : JVal
  | obj (fields : List (List Char × JVal)) : JVal

/-! ## Python string primitives -/

/-- The whitespace characters removed by Python's `str.strip()`. -/
def isPyWS (c : Char) : Bool :=
  c == ' ' || c == '\t' || c == '\n' || c == '\r' || c.toNat == 11 || c.toNat == 12

/-- Python `str.strip()`. -/
def pyStrip (s : List Char) : List Char :=
  ((s.dropWhile isPyWS).reverse.dropWhile isPyWS).reverse

/-- Python `str.find(c)`: index of the first occurrence, `-1` if absent. -/
def pyFind (s : List Char) (c : Char) : Int :=
  match s with
  | [] => -1
  | a :: rest =>
    if a == c then 0
    else if pyFind rest c < 0 then -1 else pyFind rest c + 1

/-- Python `str.rfind(c)`: index of the last occurrence, `-1` if absent
(located through the first occurrence in the reversed string). -/
def pyRFind (s : List Char) (c : Char) : Int :=
  if pyFind s.reverse c < 0 then -1
  else (s.length : Int) - 1 - pyFind s.reverse c

/-- Python slice `s[i:]`, including negative-index semantics
(so `s[-1:]` is the last character, the infamous result of
`s[s.find('\x7b'):]` when `find` returns `-1`). -/
def pySliceFrom (s : List Char) (i : Int) : List Char :=
  s.drop (if i < 0 then ((s.length : Int) + i).toNat else i.toNat)

/-- Python slice `s[:i]`, including negative-index semantics. -/
def pySliceTo (s : List Char) (i : Int) : List Char :=
  s.take (if i < 0 then ((s.length : Int) + i).toNat else i.toNat)

/-- Python `str.startswith(c)` for a single character. -/
def pyStartsWith (s : List Char) (c : Char) : Bool :=
  match s with
  | [] => false
  | a :: _ => a == c

/-- Python `str.endswith(c)` for a single character. -/
def pyEndsWith (s : List Char) (c : Char) : Bool :=
  pyStartsWith s.reverse c

/-- Lower-casing, for Python `str.lower()`. -/
def lowerStr (s : List Char) : List Char := s.map Char.toLower

/-- Python's `needle in hay` substring containment test. -/
def isSubstring (needle hay : List Char) : Bool :=
  (List.range (hay.length + 1)).any (fun i => needle.isPrefixOf (hay.drop i))

/-! ## The tolerant JSON extraction of `_parse_ai_response`

```python
json_str = response_text.strip()
if not json_str.startswith('\x7b'):
    json_str = json_str[json_str.find('\x7b'):]
if not json_str.endswith('\x7d'):
    json_str = json_str[:json_str.rfind('\x7d')+1]
```
identical in `fraud_analyzer.py`, `credit_scoring.py` and `llm_screening.py`. -/
def extractStepTwo (s : List Char) : List Char :=
  if pyStartsWith s '\x7b' then s else pySliceFrom s (pyFind s '\x7b')

/-- The third line of the extraction (truncate after the last `\x7d`). -/
def extractStepThree (s : List Char) : List Char :=
  if pyEndsWith s '\x7d' then s else pySliceTo s (pyRFind s '\x7d' + 1)

/-- The whole tolerant extraction: strip, first-brace cut, last-brace cut. -/
def extractJson (raw : List Char) : List Char :=
  extractStepThree (extractStepTwo (pyStrip raw))

/-! ## `json.loads` on the engine's payload subset -/

/-- Whitespace skipped between JSON tokens. -/
def skipJWS (s : List Char) : List Char :=
  s.dropWhile (fun c => c == ' ' || c == '\t' || c == '\n' || c == '\r')

/-- Numeric value of a digit string. -/
def digitsToNat (ds : List Char) : ℕ :=
  ds.foldl (fun a c => a * 10 + (c.toNat - 48)) 0

/-- Parse a JSON number (integer or decimal fraction, no exponent). -/
def parseNumber (s : List Char) : Option (ℚ × List Char) :=
  let neg := pyStartsWith s '-'
  let s1 := if neg then s.drop 1 else s
  let ds := s1.takeWhile Char.isDigit
  let s2 := s1.dropWhile Char.isDigit
  if ds.isEmpty then none
  else
    match s2 with
    | '.' :: rest =>
      let fs := rest.takeWhile Char.isDigit
      let s3 := rest.dropWhile Char.isDigit
      if fs.isEmpty then none
      else
        let q : ℚ := (digitsToNat ds : ℚ) + (digitsToNat fs : ℚ) / (10 : ℚ) ^ fs.length
        some (if neg then -q else q, s3)
    | _ => some (if neg then -(digitsToNat ds : ℚ) else (digitsToNat ds : ℚ), s2)

/-- Parse the body of a JSON string after the opening quote
(escape sequences are outside the modelled subset and fail). -/
def parseJStr : List Char → Option (List Char × List Char)
  | [] => none
  | c :: rest =>
    if c == '"' then some ([], rest)
    else if c == '\\' then none
    else (parseJStr rest).map (fun p => (c :: p.1, p.2))

mutual

/-- Parse one JSON value; `fuel` bounds the recursion depth/width. -/
def parseVal : ℕ → List Char → Option (JVal × List Char)
  | 0, _ => none
  | fuel + 1, s =>
    match skipJWS s with
    | '\x7b' :: rest =>
      match skipJWS rest with
      | '\x7d' :: r => some (JVal.obj [], r)
      | r => parseMembers fuel r []
    | '[' :: rest =>
      match skipJWS rest with
      | ']' :: r => some (JVal.arr [], r)
      | r => parseItems fuel r []
    | '"' :: rest => (parseJStr rest).map (fun p => (JVal.str p.1, p.2))
    | 't' :: 'r' :: 'u' :: 'e' :: rest => some (JVal.bool true, rest)
    | 'f' :: 'a' :: 'l' :: 's' :: 'e' :: rest => some (JVal.bool false, rest)
    | 'n' :: 'u' :: 'l' :: 'l' :: rest => some (JVal.null, rest)
    | s' => (parseNumber s').map (fun p => (JVal.num p.1, p.2))

/-- Parse the members of a JSON object (after at least one is required). -/
def parseMembers : ℕ → List Char → List (List Char × JVal) →
    Option (JVal × List Char)
  | 0, _, _ => none
  | fuel + 1, s, acc =>
    match skipJWS s with
    | '"' :: rest =>
      match parseJStr rest with
      | none => none
      | some (key, r1) =>
        match skipJWS r1 with
        | ':' :: r2 =>
          match parseVal fuel r2 with
          | none => none
          | some (v, r3) =>
            match skipJWS r3 with
            | ',' :: r4 => parseMembers fuel r4 (acc ++ [(key, v)])
            | '\x7d' :: r4 => some (JVal.obj (acc ++ [(key, v)]), r4)
            | _ => none
        | _ => none
    | _ => none

/-- Parse the items of a JSON array (after at least one is required). -/
def parseItems : ℕ → List Char → List JVal → Option (JVal × List Char)
  | 0, _, _ => none
  | fuel + 1, s, acc =>
    match parseVal fuel s with
    | none => none
    | some (v, r) =>
      match skipJWS r with
      | ',' :: r2 => parseItems fuel r2 (acc ++ [v])
      | ']' :: r2 => some (JVal.arr (acc ++ [v]), r2)
      | _ => none

end

/-- `json.loads`: parse a full JSON document, rejecting trailing data. -/
def jsonDecode (s : List Char) : Option JVal :=
  match parseVal (s.length + 1) s with
  | some (v, rest) => if (skipJWS rest).isEmpty then some v else none
  | none => none

/-! ## Python dict / value helpers -/

/-- `d[k]` lookup on a decoded object; as in a Python dict literal, a later
duplicate key shadows an earlier one. -/
def pyLookup (fields : List (List Char × JVal)) (k : List Char) : Option JVal :=
  (fields.reverse.find? (fun p => p.1 == k)).map (·.2)

/-- `k in d` on a decoded object. -/
def hasKey (fields : List (List Char × JVal)) (k : List Char) : Bool :=
  fields.any (fun p => p.1 == k)

/-- Python truthiness (`bool(v)`). -/
def pyTruthy : JVal → Bool
  | .null => false
  | .bool b => b
  | .num q => decide (q ≠ 0)
  | .str s => !s.isEmpty
  | .arr xs => !xs.isEmpty
  | .obj fs => !fs.isEmpty

/-- Python `float(s)` on a string: strip, then a plain decimal literal
(the engine's payloads; other forms fail, i.e. raise in Python). -/
def pyStrToNum (s : List Char) : Option ℚ :=
  match parseNumber (pyStrip s) with
  | some (q, []) => some q
  | _ => none

/-- Python `float(v)`: numbers pass through, booleans become `0/1`, numeric
strings convert; anything else raises (`none`). -/
def pyFloat : JVal → Option ℚ
  | .num q => some q
  | .bool b => some (if b then 1 else 0)
  | .str s => pyStrToNum s
  | _ => none

/-! ## Risk tiers and the fraud-analyzer response parser -/

/-- The five risk tiers appearing in `fraud_analyzer.py`. -/
inductive Risk : Type where
  | very_low | low | medium | high | critical
  deriving DecidableEq

/-- Numeric severity rank of a tier (for monotonicity statements). -/
def Risk.rank : Risk → ℕ
  | .very_low => 0
  | .low => 1
  | .medium => 2
  | .high => 3
  | .critical => 4

/-- Decode one of the five valid `risk_level` strings. -/
def riskOfStr (s : List Char) : Option Risk :=
  if s == "very_low".toList then some .very_low
  else if s == "low".toList then some .low
  else if s == "medium".toList then some .medium
  else if s == "high".toList then some .high
  else if s == "critical".toList then some .critical
  else none

/-- `fraud_analyzer._parse_ai_response`'s coercion of `risk_level`:
any value outside the five valid strings becomes `'medium'`. -/
def coerceRisk (v : Option JVal) : Risk :=
  match v with
  | some (.str s) => (riskOfStr s).getD .medium
  | _ => .medium

/-- Python `min(a, b)` on exact numbers, written so it computes. -/
def pyMin (a b : ℚ) : ℚ := if a ≤ b then a else b

/-- Python `max(a, b)` on exact numbers, written so it computes. -/
def pyMax (a b : ℚ) : ℚ := if b ≤ a then a else b

/-- `max(0, min(100, q))` — the score/confidence clamp of the parsers. -/
def clampScore (q : ℚ) : ℚ := pyMax 0 (pyMin 100 q)

/-- The advisory verdict materialised by `fraud_analyzer._parse_ai_response`
(the fields every verified property mentions; the free-text list fields it
also carries are normalised without ever failing and are not modelled). -/
structure AiParsed : Type where
  is_fraud : Bool
  fraud_score : ℚ
  risk_level : Risk
  confidence : Option ℚ
  explanation : JVal

/-- The required fields of the fraud advisory payload. -/
def requiredFraud (fields : List (List Char × JVal)) : Bool :=
  ["is_fraud".toList, "fraud_score".toList, "risk_level".toList,
    "explanation".toList].all (hasKey fields)

/-- The validation/normalisation stage of `fraud_analyzer._parse_ai_response`,
applied to the decoded JSON document (`none` models a raised-and-caught
exception or an explicit `return None`):
* a non-object document never yields a verdict (the field probes or `.get`
  calls raise, caught by the enclosing `except`);
* all four required fields must be present, else hard failure;
* `is_fraud` is coerced by truthiness, `fraud_score` by `float` then clamped
  into `[0,100]`, `risk_level` coerced to `'medium'` when invalid,
  `confidence` clamped only when present, `explanation` kept unchanged. -/
def parseAiFromJson : Option JVal → Option AiParsed
  | some (.obj fields) =>
    if requiredFraud fields then
      match pyFloat ((pyLookup fields "fraud_score".toList).getD (.num 0)) with
      | none => none
      | some sc =>
        match
          (match pyLookup fields "confidence".toList with
           | none => some none
           | some v => (pyFloat v).map some) with
        | none => none
        | some conf =>
          some
            { is_fraud := pyTruthy ((pyLookup fields "is_fraud".toList).getD (.bool false))
              fraud_score := clampScore sc
              risk_level := coerceRisk (pyLookup fields "risk_level".toList)
              confidence := conf.map clampScore
              explanation := (pyLookup fields "explanation".toList).getD .null }
    else none
  | _ => none

/-- `fraud_analyzer._parse_ai_response`: tolerant extraction, decode,
validation, normalisation. -/
def parseAiResponse (raw : List Char) : Option AiParsed :=
  parseAiFromJson (jsonDecode (extractJson raw))

/-! ## The credit-scoring response parser (`credit_scoring._parse_ai_response`) -/

/-- Application status values of the credit scorer. -/
inductive CStatus : Type where
  | approved | conditional_approval | rejected
  deriving DecidableEq

/-- Three-level risk of the credit scorer. -/
inductive CRisk : Type where
  | low | medium | high
  deriving DecidableEq

/-- Status coercion: any value outside the three valid strings becomes
`'REJECTED'`. -/
def coerceStatus (v : Option JVal) : CStatus :=
  match v with
  | some (.str s) =>
    if s == "APPROVED".toList then .approved
    else if s == "CONDITIONAL_APPROVAL".toList then .conditional_approval
    else .rejected
  | _ => .rejected

/-- Credit risk coercion: any value outside `low/medium/high` becomes
`'high'`. -/
def coerceCRisk (v : Option JVal) : CRisk :=
  match v with
  | some (.str s) =>
    if s == "low".toList then .low
    else if s == "medium".toList then .medium
    else if s == "high".toList then .high
    else .high
  | _ => .high

/-- The advisory verdict materialised by `credit_scoring._parse_ai_response`
(`approved` and `reason` are kept unnormalised, exactly as in the source). -/
structure CreditParsed : Type where
  approved : JVal
  status : CStatus
  risk_level : CRisk
  confidence_score : Option ℚ
  reason : JVal

/-- The required fields of the credit advisory payload. -/
def requiredCredit (fields : List (List Char × JVal)) : Bool :=
  ["approved".toList, "status".toList, "risk_level".toList,
    "reason".toList].all (hasKey fields)

/-- `max(0, min(100, v))` on a raw decoded value: Python compares numbers and
booleans, and raises a `TypeError` (caught, yielding `None`) on anything
else — `credit_scoring` clamps `confidence_score` without a `float(...)`
conversion. -/
def pyClampRaw : JVal → Option ℚ
  | .num q => some (clampScore q)
  | .bool b => some (clampScore (if b then 1 else 0))
  | _ => none

/-- The validation/normalisation stage of `credit_scoring._parse_ai_response`. -/
def parseCreditFromJson : Option JVal → Option CreditParsed
  | some (.obj fields) =>
    if requiredCredit fields then
      match
        (match pyLookup fields "confidence_score".toList with
         | none => some none
         | some v => (pyClampRaw v).map some) with
      | none => none
      | some conf =>
        some
          { approved := (pyLookup fields "approved".toList).getD .null
            status := coerceStatus (pyLookup fields "status".toList)
            risk_level := coerceCRisk (pyLookup fields "risk_level".toList)
            confidence_score := conf
            reason := (pyLookup fields "reason".toList).getD .null }
    else none
  | _ => none

/-- `credit_scoring._parse_ai_response`: same tolerant extraction and decode,
credit-specific validation. -/
def parseCreditResponse (raw : List Char) : Option CreditParsed :=
  parseCreditFromJson (jsonDecode (extractJson raw))

/-! ## The rule-based fraud analysis (`fraud_analyzer._rule_based_analysis`) -/

/-- The parts of a Python `datetime` the rule engine reads: `hour` and
`weekday()` (`0 = Monday … 6 = Sunday`). -/
structure DT : Type where
  hour : ℕ
  weekday : ℕ
  deriving DecidableEq

/-- A transaction dict as the analyzer reads it.  `amount` is the raw dict
value (`none` when the key is absent, defaulting to `0`); `timestamp` is the
parsed `datetime` (`none` covers both a missing `timestamp` string and one
`datetime.fromisoformat` rejects — either way `datetime.now()` is substituted).
String-typed fields are taken as strings (their `.get(..., '')` defaults are
the caller's empty strings); a caller passing a non-string there crashes into
the same error fallback that a bad `amount` reaches, which is the modelled
error path. -/
structure Transaction : Type where
  amount : Option JVal
  location : List Char
  merchant_category : List Char
  transaction_type : List Char
  timestamp : Option DT
  is_suspicious_template : Bool
  customer_risk_profile : List Char

/-- `_analyze_amount`: `very_high_amount = 10000` and `high_amount = 5000`
with weight `25`; round multiples of `1000` add `5`; amounts in
`[9000, 10000)` (just below the reporting threshold) add `15`. -/
def analyzeAmount (amount : ℚ) : ℚ :=
  (if 10000 ≤ amount then 25
   else if 5000 ≤ amount then 25 * (7 / 10)
   else 0)
  + (if (amount / 1000).den = 1 ∧ 1000 ≤ amount then 5 else 0)
  + (if 9000 ≤ amount ∧ amount < 10000 then 15 else 0)

/-- The `foreign_countries` list of `fraud_rules['location_risk']`. -/
def foreignCountries : List (List Char) :=
  ["London, UK".toList, "Paris, France".toList, "Tokyo, Japan".toList,
    "Sydney, Australia".toList]

/-- The `high_risk_locations` list of `fraud_rules['location_risk']`. -/
def highRiskLocations : List (List Char) :=
  ["Unknown Location".toList, "Foreign Location".toList]

/-- `_analyze_location`: weight `20` for a (case-insensitive) foreign-location
substring, `20 * 0.8` for a high-risk-location substring, `10` when the
location is empty or one of `'unknown'`, `'n/a'`, `''`. -/
def analyzeLocation (loc : List Char) : ℚ :=
  (if foreignCountries.any (fun f => isSubstring (lowerStr f) (lowerStr loc))
   then 20 else 0)
  + (if highRiskLocations.any (fun f => isSubstring (lowerStr f) (lowerStr loc))
     then 20 * (8 / 10) else 0)
  + (if loc.isEmpty ∨ lowerStr loc ∈ ["unknown".toList, "n/a".toList, []]
     then 10 else 0)

/-- `_analyze_time_patterns`: the single `unusual_hours` band `(23, 6)` is an
overnight band (`hour ≥ 23 or hour ≤ 6`) with weight `10`; weekends
(`weekday() ≥ 5`) add `5`. -/
def analyzeTimePatterns (ts : DT) : ℚ :=
  (if 23 ≤ ts.hour ∨ ts.hour ≤ 6 then 10 else 0)
  + (if 5 ≤ ts.weekday then 5 else 0)

/-- `_analyze_merchant_category`: weight `15` for the high-risk categories,
`15 * 0.6` for the medium-risk ones. -/
def analyzeMerchantCategory (cat : List Char) : ℚ :=
  if cat ∈ ["wire_transfer".toList, "luxury".toList, "electronics".toList]
  then 15
  else if cat ∈ ["online".toList, "atm".toList] then 15 * (6 / 10)
  else 0

/-- `_analyze_transaction_type`: transfers add `15` (plus `10` when the amount
is at least `5000`); withdrawals of at least `1000` add `10`. -/
def analyzeTransactionType (ty : List Char) (amount : ℚ) : ℚ :=
  if ty = "transfer".toList then
    15 + (if 5000 ≤ amount then 10 else 0)
  else if ty = "withdrawal".toList ∧ 1000 ≤ amount then 10
  else 0

/-- `_analyze_velocity_patterns`: the suspicious-template flag adds `20`, a
high-risk customer profile adds `15`. -/
def analyzeVelocityPatterns (t : Transaction) : ℚ :=
  (if t.is_suspicious_template then 20 else 0)
  + (if t.customer_risk_profile = "high".toList then 15 else 0)

/-- One entry of the analyzer's `fraud_patterns` table. -/
structure FraudPattern : Type where
  name : List Char
  indicators : List (List Char)
  risk_score : ℚ

/-- The four known fraud patterns with their indicator tags and risk scores. -/
def fraudPatterns : List FraudPattern :=
  [⟨"card_testing".toList,
    ["multiple_small_amounts".toList, "short_time_window".toList], 80⟩,
   ⟨"account_takeover".toList,
    ["foreign_location".toList, "high_amount".toList,
      "unusual_merchant".toList], 90⟩,
   ⟨"synthetic_identity".toList,
    ["new_account".toList, "high_amount".toList, "limited_history".toList], 85⟩,
   ⟨"money_laundering".toList,
    ["structured_amounts".toList, "frequent_transfers".toList,
      "round_amounts".toList], 95⟩]

/-- The case-sensitive location keywords of `_analyze_fraud_patterns`. -/
def foreignKeywords : List (List Char) :=
  ["UK".toList, "France".toList, "Japan".toList, "Australia".toList]

/-- How many of a pattern's indicator tags match the transaction, per the four
checks of `_analyze_fraud_patterns` (indicator tags not covered by any check
can never match). -/
def patternMatches (amount : ℚ) (loc cat ty : List Char)
    (inds : List (List Char)) : ℕ :=
  (if "high_amount".toList ∈ inds ∧ 5000 ≤ amount then 1 else 0)
  + (if "foreign_location".toList ∈ inds ∧
        foreignKeywords.any (fun k => isSubstring k loc) then 1 else 0)
  + (if "unusual_merchant".toList ∈ inds ∧
        cat ∈ ["luxury".toList, "electronics".toList] then 1 else 0)
  + (if "wire_transfer".toList ∈ inds ∧ ty = "transfer".toList then 1 else 0)

/-- `_analyze_fraud_patterns`: a pattern whose match count reaches 60% of its
indicator count contributes `risk_score * 0.3`. -/
def analyzeFraudPatterns (amount : ℚ) (loc cat ty : List Char) : ℚ :=
  (fraudPatterns.map (fun p =>
    if (p.indicators.length : ℚ) * (6 / 10)
        ≤ (patternMatches amount loc cat ty p.indicators : ℚ)
    then p.risk_score * (3 / 10) else 0)).sum

/-- The `analysis_method` tags of the fraud analyzer. -/
inductive Method : Type where
  | rule_based | error | ai_enhanced
  deriving DecidableEq

/-- A fraud verdict: the scored/branching fields of the result dicts built by
`_rule_based_analysis` and `_combine_ai_and_rules` (free-text explanations,
indicator lists and the score breakdown are carried alongside in the source
and are not modelled). For combined verdicts `confidence` is the source's
`combined_confidence` value. -/
structure AnalysisResult : Type where
  fraud_score : ℚ
  risk_level : Risk
  is_fraud : Bool
  confidence : ℚ
  method : Method
  deriving DecidableEq

/-- The tier thresholds of `_rule_based_analysis` (also deciding `is_fraud`):
`≥ 80 high`, `≥ 50 medium`, `≥ 30 low`, otherwise `very_low`. -/
def ruleTier (q : ℚ) : Risk :=
  if 80 ≤ q then .high
  else if 50 ≤ q then .medium
  else if 30 ≤ q then .low
  else .very_low

/-- The verdict returned by `_rule_based_analysis`'s `except` handler when the
analysis itself fails: default medium risk, score `50`, flagged as fraud,
zero confidence. -/
def errorFallback : AnalysisResult :=
  { fraud_score := 50, risk_level := .medium, is_fraud := true,
    confidence := 0, method := .error }

/-- The uncapped sum of the seven per-aspect scores. -/
def rawRuleScore (t : Transaction) (amount : ℚ) (ts : DT) : ℚ :=
  analyzeAmount amount + analyzeLocation t.location + analyzeTimePatterns ts
    + analyzeMerchantCategory t.merchant_category
    + analyzeTransactionType t.transaction_type amount
    + analyzeVelocityPatterns t
    + analyzeFraudPatterns amount t.location t.merchant_category
        t.transaction_type

/-- `_rule_based_analysis`: extract the amount (failure reaches the error
fallback), substitute `now` for a missing/unparseable timestamp, sum the seven
aspect scores, cap the reported score at `100`, derive tier and fraud flag
from the uncapped sum, and set the rule confidence `min(95, score + 10)`. -/
def ruleBasedAnalysis (t : Transaction) (now : DT) : AnalysisResult :=
  match pyFloat (t.amount.getD (.num 0)) with
  | none => errorFallback
  | some amount =>
    let ts := t.timestamp.getD now
    let s := rawRuleScore t amount ts
    { fraud_score := pyMin 100 s
      risk_level := ruleTier s
      is_fraud := decide (50 ≤ s)
      confidence := pyMin 95 (s + 10)
      method := .rule_based }

/-! ## The combiner (`fraud_analyzer._combine_ai_and_rules`) -/

/-- The tier thresholds `_combine_ai_and_rules` applies to the combined score:
`≥ 85 critical`, `≥ 70 high`, `≥ 50 medium`, `≥ 30 low`, else `very_low` —
note these are not the thresholds of `ruleTier`. -/
def combinedTier (q : ℚ) : Risk :=
  if 85 ≤ q then .critical
  else if 70 ≤ q then .high
  else if 50 ≤ q then .medium
  else if 30 ≤ q then .low
  else .very_low

/-- `_combine_ai_and_rules`: weighted score `ai * 0.6 + rule * 0.4`; final
tier recomputed from the combined score by `combinedTier`; fraud flag
`combined ≥ 50 or (ai says fraud and rule score ≥ 30)`; confidence the average
of the AI confidence (`0` when absent) and the rule confidence. -/
def combineAiAndRules (ai : AiParsed) (rule : AnalysisResult) : AnalysisResult :=
  let combined := ai.fraud_score * (6 / 10) + rule.fraud_score * (4 / 10)
  { fraud_score := combined
    risk_level := combinedTier combined
    is_fraud := decide (50 ≤ combined)
      || (ai.is_fraud && decide (30 ≤ rule.fraud_score))
    confidence := (ai.confidence.getD 0 + rule.confidence) / 2
    method := .ai_enhanced }

/-! ## The advisory retry loop (`fraud_analyzer._get_ai_analysis`) and
`analyze_transaction` -/

/-- The outcome of one `requests.post` attempt: a raised
`RequestException` (or any other exception), or a response with a status code
and — for the `200` branch — the `result['response']` text (`none` when
`response.json()` or the `'response'` key lookup raises). -/
inductive HttpOutcome : Type where
  | exn : HttpOutcome
  | resp (status : ℕ) (body : Option (List Char)) : HttpOutcome

/-- The retry loop of `_get_ai_analysis` over attempts
`attempt, attempt+1, …` with `remaining` attempts left, returning the parsed
verdict (if any) together with the number of `requests.post` calls made.
A parsed `200` response returns immediately; an unparsable `200` body, a
non-`200` status and a raised exception all fall through to the next attempt
(the inter-attempt `time.sleep` is timing, not modelled). -/
def getAiLoop (transport : ℕ → HttpOutcome) :
    ℕ → ℕ → Option AiParsed × ℕ
  | _, 0 => (none, 0)
  | attempt, remaining + 1 =>
    match transport attempt with
    | .exn =>
      let r := getAiLoop transport (attempt + 1) remaining
      (r.1, r.2 + 1)
    | .resp status body =>
      if status = 200 then
        match body with
        | some raw =>
          match parseAiResponse raw with
          | some p => (some p, 1)
          | none =>
            let r := getAiLoop transport (attempt + 1) remaining
            (r.1, r.2 + 1)
        | none =>
          let r := getAiLoop transport (attempt + 1) remaining
          (r.1, r.2 + 1)
      else
        let r := getAiLoop transport (attempt + 1) remaining
        (r.1, r.2 + 1)

/-- `self.max_retries` of `FraudAnalyzer.__init__`. -/
def maxRetries : ℕ := 3

/-- `_get_ai_analysis`: up to `max_retries` attempts starting at attempt `0`;
`none` (the Python `return None`) after exhausting them — no exception
escapes, every failure mode is absorbed by the loop. -/
def getAiAnalysis (transport : ℕ → HttpOutcome) : Option AiParsed × ℕ :=
  getAiLoop transport 0 maxRetries

/-- `analyze_transaction`: always run the rule analysis; on advisory success
combine, otherwise fall back to the rule verdict alone, overwriting
`analysis_method` with `'rule_based'`. -/
def analyzeTransaction (transport : ℕ → HttpOutcome) (t : Transaction)
    (now : DT) : AnalysisResult :=
  let rule := ruleBasedAnalysis t now
  match (getAiAnalysis transport).1 with
  | some ai => combineAiAndRules ai rule
  | none => { rule with method := .rule_based }

/-! ## `credit_scoring._estimate_interest_rate` -/

/-- `_estimate_interest_rate`: each credit-score band returns its base rate
plus `random.uniform(0, hi)`; the fresh uniform draw is made explicit as
`u ∈ [0,1]`, scaled by each band's `hi` (`1.0`, `1.5`, `2.0`, `3.0`, `4.0`). -/
def estimateInterestRate (creditScore : ℤ) (u : ℚ) : ℚ :=
  if 750 ≤ creditScore then 7 / 2 + u * 1
  else if 700 ≤ creditScore then 9 / 2 + u * (3 / 2)
  else if 650 ≤ creditScore then 6 + u * 2
  else if 600 ≤ creditScore then 8 + u * 3
  else 11 + u * 4

/-! ## The spec's claimed rule-tier thresholds, for comparison -/

/-- Modelled from the spec's words (not from the source), for comparison with
`ruleTier`: the claimed partition `very_low (<15)`, `low [15,30)`,
`medium [30,50)`, `high [50,80)`, `critical [80,100]`. -/
def specRuleTier (q : ℚ) : Risk :=
  if q < 15 then .very_low
  else if q < 30 then .low
  else if q < 50 then .medium
  else if q < 80 then .high
  else .critical

/-! ## Concrete inputs used by witnesses and counterexamples -/

/-- Monday noon — a time contributing no unusual-hours or weekend score. -/
def nowNoonMon : DT := ⟨12, 0⟩

/-- Monday 23:00 — inside the unusual-hours band. -/
def nowLateMon : DT := ⟨23, 0⟩

/-- The spec's benign scenario-A transaction (grocery purchase, $50,
New York). -/
def tGrocery : Transaction :=
  { amount := some (.num 50), location := "New York".toList,
    merchant_category := "grocery".toList,
    transaction_type := "purchase".toList, timestamp := some nowNoonMon,
    is_suspicious_template := false, customer_risk_profile := "low".toList }

/-- The benign transaction as a wire transfer: its only score contribution is
the transfer weight `15`. -/
def tTransferOnly : Transaction :=
  { tGrocery with transaction_type := "transfer".toList }

/-- A transaction whose `amount` value makes `float(...)` raise
(`float(None)`), driving `_rule_based_analysis` into its error fallback. -/
def tBadAmount : Transaction :=
  { tGrocery with amount := some .null }

/-- The benign transaction without a timestamp: the analyzer substitutes the
wall clock. -/
def tNoTimestamp : Transaction :=
  { tGrocery with timestamp := none }

/-- An advisory verdict scoring 75 (tier fields deliberately disagreeing with
the combined tier). -/
def aiMid : AiParsed :=
  { is_fraud := false, fraud_score := 75, risk_level := .high,
    confidence := none, explanation := .null }

/-- A rule verdict scoring 75. -/
def ruleMid : AnalysisResult :=
  { fraud_score := 75, risk_level := .medium, is_fraud := true,
    confidence := 85, method := .rule_based }

/-- The spec's tolerant-parsing test object (adapted to the fraud schema's
required fields), without its braces. -/
def objMid : List Char :=
  ("\"is_fraud\":\"yes\",\"fraud_score\":150,\"risk_level\":\"banana\"," ++
    "\"explanation\":\"x\"").toList

/-- The spec's tolerant-parsing test object: all four required fields present,
`fraud_score` out of range (`150`), `risk_level` out of the enum
(`"banana"`). -/
def objNoisy : List Char := '\x7b' :: objMid ++ ['\x7d']

/-- What parsing `objNoisy` must yield: truthy `is_fraud`, score clamped to
`100`, risk coerced to the default `medium`, explanation preserved. -/
def aiNoisy : AiParsed :=
  { is_fraud := true, fraud_score := 100, risk_level := .medium,
    confidence := none, explanation := .str "x".toList }

/-- A decoded-but-incomplete payload: an object missing required fields of
both schemas. -/
def rawMissing : List Char := "\x7b\"fraud_score\":10\x7d".toList

/-- A well-formed fraud advisory payload (score out of range, so the parsed
score is the clamp's own literal `100`). -/
def rawOk : List Char :=
  ("\x7b\"is_fraud\":false,\"fraud_score\":150,\"risk_level\":\"low\"," ++
    "\"explanation\":\"ok\"\x7d").toList

/-- The verdict parsed from `rawOk`. -/
def aiOk : AiParsed :=
  { is_fraud := false, fraud_score := 100, risk_level := .low,
    confidence := none, explanation := .str "ok".toList }

/-- A response with no opening brace at all. -/
def rawNoBrace : List Char := "no braces here".toList

/-- An unparsable advisory body (no brace). -/
def rawBad : List Char := "not json".toList

/-! ## Helper lemmas: score bounds -/

theorem clampScore_bounds (q : ℚ) : 0 ≤ clampScore q ∧ clampScore q ≤ 100 := by
  unfold clampScore pyMax pyMin
  split_ifs <;> constructor <;> linarith

theorem analyzeAmount_nonneg (a : ℚ) : 0 ≤ analyzeAmount a := by
  unfold analyzeAmount; split_ifs <;> norm_num

theorem analyzeLocation_nonneg (l : List Char) : 0 ≤ analyzeLocation l := by
  unfold analyzeLocation; split_ifs <;> norm_num

theorem analyzeTimePatterns_nonneg (ts : DT) : 0 ≤ analyzeTimePatterns ts := by
  unfold analyzeTimePatterns; split_ifs <;> norm_num

theorem analyzeMerchantCategory_nonneg (c : List Char) :
    0 ≤ analyzeMerchantCategory c := by
  unfold analyzeMerchantCategory; split_ifs <;> norm_num

theorem analyzeTransactionType_nonneg (ty : List Char) (a : ℚ) :
    0 ≤ analyzeTransactionType ty a := by
  unfold analyzeTransactionType; split_ifs <;> norm_num

theorem analyzeVelocityPatterns_nonneg (t : Transaction) :
    0 ≤ analyzeVelocityPatterns t := by
  unfold analyzeVelocityPatterns; split_ifs <;> norm_num

theorem analyzeFraudPatterns_nonneg (a : ℚ) (l c ty : List Char) :
    0 ≤ analyzeFraudPatterns a l c ty := by
  unfold analyzeFraudPatterns fraudPatterns
  simp only [List.map, List.sum_cons, List.sum_nil]
  split_ifs <;> norm_num

theorem rawRuleScore_nonneg (t : Transaction) (a : ℚ) (ts : DT) :
    0 ≤ rawRuleScore t a ts := by
  unfold rawRuleScore
  have h1 := analyzeAmount_nonneg a
  have h2 := analyzeLocation_nonneg t.location
  have h3 := analyzeTimePatterns_nonneg ts
  have h4 := analyzeMerchantCategory_nonneg t.merchant_category
  have h5 := analyzeTransactionType_nonneg t.transaction_type a
  have h6 := analyzeVelocityPatterns_nonneg t
  have h7 := analyzeFraudPatterns_nonneg a t.location t.merchant_category
    t.transaction_type
  linarith

theorem ruleScore_bounds (t : Transaction) (now : DT) :
    0 ≤ (ruleBasedAnalysis t now).fraud_score
      ∧ (ruleBasedAnalysis t now).fraud_score ≤ 100 := by
  cases hpf : pyFloat (t.amount.getD (.num 0)) with
  | none => simp only [ruleBasedAnalysis, hpf]; norm_num [errorFallback]
  | some a =>
    simp only [ruleBasedAnalysis, hpf]
    have h := rawRuleScore_nonneg t a (t.timestamp.getD now)
    unfold pyMin
    split_ifs <;> constructor <;> linarith

theorem ruleTier_pyMin (s : ℚ) : ruleTier (pyMin 100 s) = ruleTier s := by
  unfold pyMin ruleTier
  split_ifs <;> first | rfl | linarith

/-! ## Claim C1 -/

/-- Claim C1 (amended): for every rule verdict and advisory verdict, the
combiner's final score is exactly `advisory.score * 0.6 + rule.score * 0.4`,
and the final risk tier is recomputed from that combined score alone, never
reusing either sub-verdict's tier — but through the combiner's own threshold
function `combinedTier` (cuts 30/50/70/85 with a `critical` band), which is
not the rule engine's threshold function `ruleTier` (cuts 30/50/80, no
`critical`). -/
theorem combiner_score_and_tier (ai : AiParsed) (rule : AnalysisResult) :
    (combineAiAndRules ai rule).fraud_score
        = ai.fraud_score * (6 / 10) + rule.fraud_score * (4 / 10)
      ∧ (combineAiAndRules ai rule).risk_level
          = combinedTier ((combineAiAndRules ai rule).fraud_score) :=
  ⟨rfl, rfl⟩

/-- Claim C1 counterexample: at advisory score 75 and rule score 75 the
combined score is 75 and the combiner assigns tier `high`, while the rule
engine's threshold function assigns `medium` to the very same score — so the
final tier is not computed with "the same fixed threshold function the rule
engine uses". -/
theorem combiner_tier_cex :
    (combineAiAndRules aiMid ruleMid).fraud_score = 75
      ∧ (combineAiAndRules aiMid ruleMid).risk_level = .high
      ∧ ruleTier 75 = .medium
      ∧ Risk.high ≠ Risk.medium := by
  refine ⟨?_, ?_, ?_, by decide⟩
  · norm_num [combineAiAndRules, aiMid, ruleMid]
  · norm_num [combineAiAndRules, aiMid, ruleMid, combinedTier]
  · norm_num [ruleTier]

/-! ## Claim C2 -/

/-- Claim C2 (amended): the rule verdict's tier is the fixed threshold
function `ruleTier` of its reported score; `ruleTier` partitions all scores
with no gaps as `very_low (<30)`, `low [30,50)`, `medium [50,80)`,
`high (≥80)`, and is monotone.  The claimed cut at 15 and the claimed
`critical` band do not exist in `_rule_based_analysis`. -/
theorem rule_tier_thresholds :
    (∀ (t : Transaction) (now : DT),
        (ruleBasedAnalysis t now).risk_level
          = ruleTier ((ruleBasedAnalysis t now).fraud_score))
      ∧ (∀ q : ℚ, (q < 30 → ruleTier q = .very_low)
          ∧ (30 ≤ q → q < 50 → ruleTier q = .low)
          ∧ (50 ≤ q → q < 80 → ruleTier q = .medium)
          ∧ (80 ≤ q → ruleTier q = .high))
      ∧ (∀ q r : ℚ, q ≤ r → (ruleTier q).rank ≤ (ruleTier r).rank) := by
  refine ⟨?_, ?_, ?_⟩
  · intro t now
    cases hpf : pyFloat (t.amount.getD (.num 0)) with
    | none =>
      simp only [ruleBasedAnalysis, hpf]
      norm_num [errorFallback, ruleTier]
    | some a =>
      simp only [ruleBasedAnalysis, hpf]
      exact (ruleTier_pyMin _).symm
  · intro q
    refine ⟨fun h => ?_, fun h1 h2 => ?_, fun h1 h2 => ?_, fun h => ?_⟩ <;>
      (unfold ruleTier; split_ifs <;> first | rfl | linarith)
  · intro q r hqr
    unfold ruleTier
    split_ifs <;> simp [Risk.rank] <;> linarith

/-- Witness for `rule_tier_thresholds`, at the benign concrete transaction
and concrete scores in each band. -/
theorem rule_tier_thresholds_witness :
    (ruleBasedAnalysis tGrocery nowNoonMon).risk_level
        = ruleTier ((ruleBasedAnalysis tGrocery nowNoonMon).fraud_score)
      ∧ ruleTier 20 = .very_low ∧ ruleTier 40 = .low ∧ ruleTier 60 = .medium
      ∧ ruleTier 90 = .high
      ∧ (ruleTier 20).rank ≤ (ruleTier 90).rank := by
  obtain ⟨h1, h2, h3⟩ := rule_tier_thresholds
  exact ⟨h1 tGrocery nowNoonMon, (h2 20).1 (by norm_num),
    (h2 40).2.1 (by norm_num) (by norm_num),
    (h2 60).2.2.1 (by norm_num) (by norm_num),
    (h2 90).2.2.2 (by norm_num), h3 20 90 (by norm_num)⟩

/-- Claim C2 counterexample: a pure wire-transfer transaction scores exactly
15; the claimed partition places 15 in the `low` band, but the code assigns
`very_low` (its lowest cut is 30, and it has no 15 cut and no `critical`
band). -/
theorem rule_tier_cex :
    (ruleBasedAnalysis tTransferOnly nowNoonMon).fraud_score = 15
      ∧ specRuleTier 15 = .low
      ∧ (ruleBasedAnalysis tTransferOnly nowNoonMon).risk_level = .very_low
      ∧ Risk.very_low ≠ Risk.low := by
  refine ⟨?_, by norm_num [specRuleTier], ?_, by decide⟩
  · simp +decide only [ruleBasedAnalysis, rawRuleScore, analyzeAmount,
      analyzeLocation, analyzeTimePatterns, analyzeMerchantCategory,
      analyzeTransactionType, analyzeVelocityPatterns, analyzeFraudPatterns,
      patternMatches, fraudPatterns, foreignCountries, highRiskLocations,
      foreignKeywords, pyFloat, pyMin, tTransferOnly, tGrocery, nowNoonMon,
      Option.getD, List.map]
    norm_num
  · simp +decide only [ruleBasedAnalysis, rawRuleScore, analyzeAmount,
      analyzeLocation, analyzeTimePatterns, analyzeMerchantCategory,
      analyzeTransactionType, analyzeVelocityPatterns, analyzeFraudPatterns,
      patternMatches, fraudPatterns, foreignCountries, highRiskLocations,
      foreignKeywords, pyFloat, pyMin, tTransferOnly, tGrocery, nowNoonMon,
      Option.getD, List.map]
    norm_num [ruleTier]

/-! ## Claim C3 -/

/-- Claim C3 (amended): when the rule analysis itself fails internally and
the advisory path also fails, `analyze_transaction` still returns a verdict —
the error fallback with `fraud_score = 50`, `is_fraud = true` (so the failed
evaluation is never reported as non-fraud), confidence `0` — but its
`risk_level` is `medium`, not the claimed `high`, and the fraud analyzer has
no decision field that could be forced to `manual_review`. -/
theorem error_fallback_amended (transport : ℕ → HttpOutcome) (t : Transaction)
    (now : DT) (hAmount : pyFloat (t.amount.getD (.num 0)) = none)
    (hAi : (getAiAnalysis transport).1 = none) :
    analyzeTransaction transport t now
        = { errorFallback with method := .rule_based }
      ∧ errorFallback.fraud_score = 50 ∧ errorFallback.is_fraud = true
      ∧ errorFallback.risk_level = .medium := by
  refine ⟨?_, rfl, rfl, rfl⟩
  simp only [analyzeTransaction, hAi, ruleBasedAnalysis, hAmount]

/-- Witness for `error_fallback_amended`: unreachable endpoint and a `None`
amount. -/
theorem error_fallback_amended_witness :
    analyzeTransaction (fun _ => .exn) tBadAmount nowNoonMon
        = { errorFallback with method := .rule_based }
      ∧ errorFallback.fraud_score = 50 ∧ errorFallback.is_fraud = true
      ∧ errorFallback.risk_level = .medium :=
  error_fallback_amended (fun _ => .exn) tBadAmount nowNoonMon rfl rfl

/-- Claim C3 counterexample: at the concrete failing transaction (a `None`
amount makes `float(...)` raise) the fallback verdict's risk tier is
`medium` — the claimed `risk_tier = high` on the error path is false. -/
theorem error_fallback_cex :
    ruleBasedAnalysis tBadAmount nowNoonMon = errorFallback
      ∧ errorFallback.risk_level = .medium
      ∧ Risk.medium ≠ Risk.high :=
  ⟨rfl, rfl, by decide⟩

/-! ## Claim C9 -/

/-- Claim C9 (amended): the fraud rule analysis is deterministic in the
transaction alone whenever the transaction carries a parseable timestamp —
the wall-clock argument is then irrelevant, and re-evaluation yields a
bit-identical verdict.  Without a timestamp the wall clock enters the
scoring, and the credit scorer's interest-rate estimate depends on a fresh
PRNG draw, so the engine as coded is not a pure function of the feature map
(see the counterexample). -/
theorem rule_analysis_deterministic (t : Transaction) (dt : DT)
    (now now' : DT) (h : t.timestamp = some dt) :
    ruleBasedAnalysis t now = ruleBasedAnalysis t now' := by
  cases hpf : pyFloat (t.amount.getD (.num 0)) with
  | none => simp only [ruleBasedAnalysis, hpf]
  | some a => simp only [ruleBasedAnalysis, hpf, h, Option.getD_some]

/-- Witness for `rule_analysis_deterministic`: the benign transaction under
two different clocks. -/
theorem rule_analysis_deterministic_witness :
    ruleBasedAnalysis tGrocery nowNoonMon
      = ruleBasedAnalysis tGrocery nowLateMon :=
  rule_analysis_deterministic tGrocery nowNoonMon nowNoonMon nowLateMon rfl

/-- Claim C9 counterexample: the same timestamp-less transaction evaluated
under two wall-clock instants yields different verdicts (score 0 at Monday
noon, 10 at Monday 23:00 — the unusual-hours rule fires), and the
interest-rate estimate differs for one credit score under two PRNG draws —
identical feature maps do not always give bit-identical results. -/
theorem rule_analysis_nondeterministic_cex :
    (ruleBasedAnalysis tNoTimestamp nowNoonMon).fraud_score = 0
      ∧ (ruleBasedAnalysis tNoTimestamp nowLateMon).fraud_score = 10
      ∧ ruleBasedAnalysis tNoTimestamp nowNoonMon
          ≠ ruleBasedAnalysis tNoTimestamp nowLateMon
      ∧ estimateInterestRate 760 0 = 7 / 2
      ∧ estimateInterestRate 760 1 = 9 / 2
      ∧ estimateInterestRate 760 0 ≠ estimateInterestRate 760 1 := by
  have h1 : (ruleBasedAnalysis tNoTimestamp nowNoonMon).fraud_score = 0 := by
    simp +decide only [ruleBasedAnalysis, rawRuleScore, analyzeAmount,
      analyzeLocation, analyzeTimePatterns, analyzeMerchantCategory,
      analyzeTransactionType, analyzeVelocityPatterns, analyzeFraudPatterns,
      patternMatches, fraudPatterns, foreignCountries, highRiskLocations,
      foreignKeywords, pyFloat, pyMin, tNoTimestamp, tGrocery, nowNoonMon,
      Option.getD, List.map]
    norm_num
  have h2 : (ruleBasedAnalysis tNoTimestamp nowLateMon).fraud_score = 10 := by
    simp +decide only [ruleBasedAnalysis, rawRuleScore, analyzeAmount,
      analyzeLocation, analyzeTimePatterns, analyzeMerchantCategory,
      analyzeTransactionType, analyzeVelocityPatterns, analyzeFraudPatterns,
      patternMatches, fraudPatterns, foreignCountries, highRiskLocations,
      foreignKeywords, pyFloat, pyMin, tNoTimestamp, tGrocery, nowLateMon,
      Option.getD, List.map]
    norm_num
  have h3 : estimateInterestRate 760 0 = 7 / 2 := by
    norm_num [estimateInterestRate]
  have h4 : estimateInterestRate 760 1 = 9 / 2 := by
    norm_num [estimateInterestRate]
  refine ⟨h1, h2, fun he => ?_, h3, h4, fun he => ?_⟩
  · have h5 := h1
    rw [he, h2] at h5
    norm_num at h5
  · have h5 := h3
    rw [he, h4] at h5
    norm_num at h5

/-! ## Claim C4 -/

theorem getAiLoop_all_exn (transport : ℕ → HttpOutcome)
    (h : ∀ n, transport n = .exn) :
    ∀ k a, getAiLoop transport a k = (none, k) := by
  intro k
  induction k with
  | zero => intro a; rfl
  | succ k ih => intro a; rw [getAiLoop, h a]; simp [ih]

/-- Claim C4 (confirmed): with an unreachable endpoint — every request
attempt raises a transport error — and `max_retries = 3`, exactly 3
`requests.post` attempts are made; the loop absorbs every exception and
returns `None` instead of propagating a fault, and the evaluation still
returns the rule-only fallback verdict, with `analysis_method` set to
`'rule_based'` (the spec's `rule_only`). -/
theorem unreachable_endpoint_rule_fallback (transport : ℕ → HttpOutcome)
    (t : Transaction) (now : DT) (h : ∀ n, transport n = .exn) :
    getAiAnalysis transport = (none, 3)
      ∧ analyzeTransaction transport t now
          = { ruleBasedAnalysis t now with method := .rule_based } := by
  have hk : getAiAnalysis transport = (none, 3) :=
    getAiLoop_all_exn transport h maxRetries 0
  refine ⟨hk, ?_⟩
  simp only [analyzeTransaction, hk]

/-- Witness for `unreachable_endpoint_rule_fallback`: the always-raising
transport on the benign transaction. -/
theorem unreachable_endpoint_rule_fallback_witness :
    getAiAnalysis (fun _ => .exn) = (none, 3)
      ∧ analyzeTransaction (fun _ => .exn) tGrocery nowNoonMon
          = { ruleBasedAnalysis tGrocery nowNoonMon
                with method := .rule_based } :=
  unreachable_endpoint_rule_fallback (fun _ => .exn) tGrocery nowNoonMon
    (fun _ => rfl)

/-! ## Claim C5 -/

theorem getAiLoop_unparsable (transport : ℕ → HttpOutcome) (raw : List Char)
    (h : ∀ n, transport n = .resp 200 (some raw))
    (hp : parseAiResponse raw = none) :
    ∀ k a, getAiLoop transport a k = (none, k) := by
  intro k
  induction k with
  | zero => intro a; rfl
  | succ k ih => intro a; rw [getAiLoop, h a]; simp [hp, ih]

/-- Claim C5 (amended): when the HTTP call succeeds with status 200 but the
payload fails to parse, `_get_ai_analysis` does NOT stop: the unparsable 200
response falls through to the next attempt exactly like a transport failure,
up to `max_retries = 3` request attempts in total. -/
theorem unparsable_200_retried (transport : ℕ → HttpOutcome) (raw : List Char)
    (h : ∀ n, transport n = .resp 200 (some raw))
    (hp : parseAiResponse raw = none) :
    getAiAnalysis transport = (none, 3) :=
  getAiLoop_unparsable transport raw h hp maxRetries 0

/-- Witness for `unparsable_200_retried`: a transport always answering 200
with an unparsable body. -/
theorem unparsable_200_retried_witness :
    getAiAnalysis (fun _ => .resp 200 (some rawBad)) = (none, 3) :=
  unparsable_200_retried (fun _ => .resp 200 (some rawBad)) rawBad
    (fun _ => rfl) rfl

/-- Claim C5 counterexample: with every attempt answered 200-but-unparsable,
three `requests.post` calls are made, not one — parsing failure after a
successful HTTP exchange is retried, contradicting the claim that no further
request attempts are made. -/
theorem unparsable_200_retried_cex :
    parseAiResponse rawBad = none
      ∧ getAiAnalysis (fun _ => .resp 200 (some rawBad)) = (none, 3)
      ∧ (3 : ℕ) ≠ 1 :=
  ⟨rfl, rfl, by decide⟩

/-! ## Claim C7 -/

/-- Claim C7 (confirmed): every raw response that decodes to a JSON object
missing at least one required field is a hard failure (`None`) for both the
fraud parser and the credit parser — no coerced partial verdict is
produced. -/
theorem missing_required_fields_fail (raw : List Char)
    (fields : List (List Char × JVal))
    (h : jsonDecode (extractJson raw) = some (.obj fields)) :
    (requiredFraud fields = false → parseAiResponse raw = none)
      ∧ (requiredCredit fields = false → parseCreditResponse raw = none) := by
  constructor <;> intro hreq
  · simp [parseAiResponse, h, parseAiFromJson, hreq]
  · simp [parseCreditResponse, h, parseCreditFromJson, hreq]

/-- Witness for `missing_required_fields_fail`: a decoded object carrying
only `fraud_score`, missing required fields of both schemas. -/
theorem missing_required_fields_fail_witness :
    parseAiResponse rawMissing = none
      ∧ parseCreditResponse rawMissing = none := by
  have h := missing_required_fields_fail rawMissing
    [("fraud_score".toList, .num 10)] (by rfl)
  exact ⟨h.1 (by rfl), h.2 (by rfl)⟩

/-! ## Claim C8 -/

theorem parseAiFromJson_score_bounds (j : Option JVal) (ai : AiParsed)
    (h : parseAiFromJson j = some ai) :
    0 ≤ ai.fraud_score ∧ ai.fraud_score ≤ 100 := by
  match j with
  | none => simp [parseAiFromJson] at h
  | some .null => simp [parseAiFromJson] at h
  | some (.bool b) => simp [parseAiFromJson] at h
  | some (.num q) => simp [parseAiFromJson] at h
  | some (.str s) => simp [parseAiFromJson] at h
  | some (.arr xs) => simp [parseAiFromJson] at h
  | some (.obj fields) =>
    simp only [parseAiFromJson] at h
    by_cases hreq : requiredFraud fields = true
    · rw [if_pos hreq] at h
      cases hsc : pyFloat ((pyLookup fields "fraud_score".toList).getD (.num 0)) with
      | none => rw [hsc] at h; simp at h
      | some sc =>
        rw [hsc] at h
        cases hcf : (match pyLookup fields "confidence".toList with
                     | none => some none
                     | some v => (pyFloat v).map some) with
        | none => rw [hcf] at h; simp at h
        | some conf =>
          rw [hcf] at h
          simp only [Option.some.injEq] at h
          rw [← h]
          exact clampScore_bounds sc
    · rw [if_neg hreq] at h
      simp at h

theorem parseAiResponse_score_bounds (raw : List Char) (ai : AiParsed)
    (h : parseAiResponse raw = some ai) :
    0 ≤ ai.fraud_score ∧ ai.fraud_score ≤ 100 :=
  parseAiFromJson_score_bounds _ ai h

/-- Claim C8 (confirmed): every verdict at every stage of the pipeline has a
score in `[0, 100]`: the rule verdict of any transaction (error fallback
included), any successfully parsed advisory verdict, and the combined final
verdict built from them. -/
theorem scores_in_range (t : Transaction) (now : DT) (raw : List Char)
    (ai : AiParsed) (h : parseAiResponse raw = some ai) :
    (0 ≤ (ruleBasedAnalysis t now).fraud_score
        ∧ (ruleBasedAnalysis t now).fraud_score ≤ 100)
      ∧ (0 ≤ ai.fraud_score ∧ ai.fraud_score ≤ 100)
      ∧ (0 ≤ (combineAiAndRules ai (ruleBasedAnalysis t now)).fraud_score
          ∧ (combineAiAndRules ai (ruleBasedAnalysis t now)).fraud_score
              ≤ 100) := by
  have hr := ruleScore_bounds t now
  have ha := parseAiResponse_score_bounds raw ai h
  refine ⟨hr, ha, ?_, ?_⟩
  · show 0 ≤ ai.fraud_score * (6 / 10)
        + (ruleBasedAnalysis t now).fraud_score * (4 / 10)
    have g1 := mul_nonneg ha.1 (by norm_num : (0:ℚ) ≤ 6 / 10)
    have g2 := mul_nonneg hr.1 (by norm_num : (0:ℚ) ≤ 4 / 10)
    linarith
  · show ai.fraud_score * (6 / 10)
        + (ruleBasedAnalysis t now).fraud_score * (4 / 10) ≤ 100
    have g1 : ai.fraud_score * (6 / 10) ≤ 100 * (6 / 10) :=
      mul_le_mul_of_nonneg_right ha.2 (by norm_num)
    have g2 : (ruleBasedAnalysis t now).fraud_score * (4 / 10)
        ≤ 100 * (4 / 10) :=
      mul_le_mul_of_nonneg_right hr.2 (by norm_num)
    linarith

/-! ## Helper lemmas: the tolerant extraction on wrapped/brace-free text -/

theorem dropWhile_append_cons (p : Char → Bool) (g : List Char) (x : Char)
    (xs : List Char) (hx : p x = false) :
    (g ++ x :: xs).dropWhile p = g.dropWhile p ++ x :: xs := by
  induction g with
  | nil => simp [List.dropWhile_cons, hx]
  | cons a g ih =>
    by_cases hpa : p a = true
    · simp [List.dropWhile_cons, hpa, ih]
    · simp only [Bool.not_eq_true] at hpa
      simp [List.dropWhile_cons, hpa]

theorem mem_dropWhile (p : Char → Bool) (s : List Char) (c : Char)
    (h : c ∈ s.dropWhile p) : c ∈ s := by
  induction s with
  | nil => simp at h
  | cons a as ih =>
    rw [List.dropWhile_cons] at h
    by_cases hpa : p a = true
    · rw [if_pos hpa] at h
      exact List.mem_cons_of_mem a (ih h)
    · rw [if_neg hpa] at h
      exact h

theorem mem_pyStrip (s : List Char) (c : Char) (h : c ∈ pyStrip s) :
    c ∈ s := by
  unfold pyStrip at h
  rw [List.mem_reverse] at h
  have h2 := mem_dropWhile _ _ _ h
  rw [List.mem_reverse] at h2
  exact mem_dropWhile _ _ _ h2

theorem pyFind_not_mem (s : List Char) (c : Char) (h : c ∉ s) :
    pyFind s c = -1 := by
  induction s with
  | nil => rfl
  | cons a as ih =>
    rw [List.mem_cons, not_or] at h
    have ha : (a == c) = false := beq_eq_false_iff_ne.mpr fun e => h.1 e.symm
    simp [pyFind, ha, ih h.2]

theorem pyFind_append_cons (g : List Char) (c : Char) (xs : List Char)
    (h : c ∉ g) : pyFind (g ++ c :: xs) c = (g.length : Int) := by
  induction g with
  | nil => simp [pyFind]
  | cons a g ih =>
    rw [List.mem_cons, not_or] at h
    have ha : (a == c) = false := beq_eq_false_iff_ne.mpr fun e => h.1 e.symm
    have hg := ih h.2
    rw [List.cons_append, pyFind, ha, hg]
    rw [if_neg (by simp)]
    rw [if_neg (by omega)]
    simp only [List.length_cons]
    push_cast
    ring

theorem pySliceFrom_nat (s : List Char) (n : ℕ) :
    pySliceFrom s (n : Int) = s.drop n := by
  unfold pySliceFrom
  have hn : ((n : Int)).toNat = n := by omega
  rw [if_neg (by omega), hn]

theorem pySliceTo_nat (s : List Char) (n : ℕ) :
    pySliceTo s (n : Int) = s.take n := by
  unfold pySliceTo
  have hn : ((n : Int)).toNat = n := by omega
  rw [if_neg (by omega), hn]

theorem pySliceFrom_neg_one (s : List Char) :
    pySliceFrom s (-1) = s.drop (s.length - 1) := by
  unfold pySliceFrom
  have hn : ((s.length : Int) + -1).toNat = s.length - 1 := by omega
  rw [if_pos (by omega), hn]

theorem pyStartsWith_append_ne (X : List Char) (c : Char) (Y : List Char)
    (hX : X ≠ []) (h : c ∉ X) : pyStartsWith (X ++ Y) c = false := by
  cases X with
  | nil => exact absurd rfl hX
  | cons a as =>
    rw [List.mem_cons, not_or] at h
    simp [pyStartsWith, beq_eq_false_iff_ne.mpr fun e => h.1 e.symm]

theorem extractStepTwo_wrapped (g : List Char) (xs : List Char)
    (h : '\x7b' ∉ g) : extractStepTwo (g ++ '\x7b' :: xs) = '\x7b' :: xs := by
  unfold extractStepTwo
  cases hg : g with
  | nil => simp [pyStartsWith]
  | cons a g' =>
    rw [← hg]
    rw [pyStartsWith_append_ne g '\x7b' ('\x7b' :: xs) (by simp [hg]) h]
    rw [if_neg (by simp)]
    rw [pyFind_append_cons g '\x7b' xs h, pySliceFrom_nat, List.drop_left]

theorem extractStepThree_wrapped (ob : List Char) (g : List Char)
    (h : '\x7d' ∉ g) :
    extractStepThree (ob ++ '\x7d' :: g) = ob ++ ['\x7d'] := by
  unfold extractStepThree
  cases hg : g with
  | nil =>
    have hend : pyEndsWith (ob ++ '\x7d' :: ([] : List Char)) '\x7d' = true := by
      unfold pyEndsWith
      simp [List.reverse_append, pyStartsWith]
    rw [if_pos hend]
  | cons b bs =>
    rw [← hg]
    have hrev : (ob ++ '\x7d' :: g).reverse
        = g.reverse ++ '\x7d' :: ob.reverse := by
      simp [List.reverse_append]
    have hgrev : '\x7d' ∉ g.reverse := by
      rw [List.mem_reverse]; exact h
    have hends : pyEndsWith (ob ++ '\x7d' :: g) '\x7d' = false := by
      unfold pyEndsWith
      rw [hrev]
      exact pyStartsWith_append_ne g.reverse '\x7d' ('\x7d' :: ob.reverse)
        (by simp [hg]) hgrev
    rw [hends, if_neg (by simp)]
    have hfind : pyFind (ob ++ '\x7d' :: g).reverse '\x7d'
        = (g.length : Int) := by
      rw [hrev]
      have := pyFind_append_cons g.reverse '\x7d' ob.reverse hgrev
      rwa [List.length_reverse] at this
    have hlen : (ob ++ '\x7d' :: g).length = ob.length + 1 + g.length := by
      simp [List.length_append]
      omega
    have hr : pyRFind (ob ++ '\x7d' :: g) '\x7d' + 1
        = ((ob.length + 1 : ℕ) : Int) := by
      unfold pyRFind
      rw [hfind, if_neg (by omega), hlen]
      push_cast
      ring
    rw [hr, pySliceTo_nat]
    have : ob.length + 1 = (ob ++ ['\x7d']).length := by simp
    rw [this]
    have : ob ++ '\x7d' :: g = (ob ++ ['\x7d']) ++ g := by simp
    rw [this, List.take_left]

theorem extractJson_wrapped (g1 g2 mid : List Char)
    (h1 : '\x7b' ∉ g1) (h2 : '\x7d' ∉ g2) :
    extractJson (g1 ++ ('\x7b' :: mid ++ ['\x7d']) ++ g2)
      = '\x7b' :: mid ++ ['\x7d'] := by
  unfold extractJson
  have hob : isPyWS '\x7b' = false := rfl
  have hcb : isPyWS '\x7d' = false := rfl
  -- the strip keeps the object intact and only trims the garbage
  have hstrip : pyStrip (g1 ++ ('\x7b' :: mid ++ ['\x7d']) ++ g2)
      = g1.dropWhile isPyWS ++ '\x7b'
          :: (mid ++ '\x7d' :: (g2.reverse.dropWhile isPyWS).reverse) := by
    unfold pyStrip
    have e1 : g1 ++ ('\x7b' :: mid ++ ['\x7d']) ++ g2
        = g1 ++ '\x7b' :: (mid ++ '\x7d' :: g2) := by simp
    rw [e1, dropWhile_append_cons _ _ _ _ hob]
    have e2 : g1.dropWhile isPyWS ++ '\x7b' :: (mid ++ '\x7d' :: g2)
        = ((g1.dropWhile isPyWS ++ '\x7b' :: mid) ++ ['\x7d']) ++ g2 := by
      simp
    rw [e2, List.reverse_append]
    have e3 : ((g1.dropWhile isPyWS ++ '\x7b' :: mid) ++ ['\x7d']).reverse
        = '\x7d' :: (g1.dropWhile isPyWS ++ '\x7b' :: mid).reverse := by
      simp
    rw [e3]
    rw [dropWhile_append_cons _ _ _ _ hcb]
    simp
  rw [hstrip]
  have h1d : '\x7b' ∉ g1.dropWhile isPyWS :=
    fun hm => h1 (mem_dropWhile _ _ _ hm)
  have h2d : '\x7d' ∉ (g2.reverse.dropWhile isPyWS).reverse := by
    rw [List.mem_reverse]
    intro hm
    have := mem_dropWhile _ _ _ hm
    rw [List.mem_reverse] at this
    exact h2 this
  rw [extractStepTwo_wrapped _ _ h1d]
  have e4 : '\x7b' :: (mid ++ '\x7d' :: (g2.reverse.dropWhile isPyWS).reverse)
      = ('\x7b' :: mid) ++ '\x7d' :: (g2.reverse.dropWhile isPyWS).reverse := by
    simp
  rw [e4, extractStepThree_wrapped _ _ h2d]

theorem drop_length_sub_one (s : List Char) (hs : s ≠ []) :
    ∃ c, c ∈ s ∧ s.drop (s.length - 1) = [c] := by
  induction s with
  | nil => exact absurd rfl hs
  | cons a as ih =>
    rcases as with _ | ⟨b, bs⟩
    · exact ⟨a, by simp, by simp⟩
    · obtain ⟨c, hc1, hc2⟩ := ih (by simp)
      refine ⟨c, List.mem_cons_of_mem a hc1, ?_⟩
      have hlen : (a :: b :: bs).length - 1 = ((b :: bs).length - 1) + 1 := by
        simp only [List.length_cons]
        omega
      rw [hlen, List.drop_succ_cons, hc2]

/-- The extraction on any brace-free input collapses to the empty string or
to a single closing brace (the well-known `s[s.find(c):]`-with-`find = -1`
slip takes the LAST character). -/
theorem extractJson_no_brace (raw : List Char) (h : '\x7b' ∉ raw) :
    extractJson raw = [] ∨ extractJson raw = ['\x7d'] := by
  unfold extractJson
  have hs1 : '\x7b' ∉ pyStrip raw := fun hm => h (mem_pyStrip _ _ hm)
  have hfind : pyFind (pyStrip raw) '\x7b' = -1 := pyFind_not_mem _ _ hs1
  have hsw : pyStartsWith (pyStrip raw) '\x7b' = false := by
    cases hsp : pyStrip raw with
    | nil => rfl
    | cons a as =>
      have ha : a ≠ '\x7b' := by
        intro e
        rw [hsp] at hs1
        exact hs1 (by rw [e]; exact List.mem_cons_self _ _)
      simp [pyStartsWith, ha, beq_eq_false_iff_ne.mpr ha]
  have hstep2 : extractStepTwo (pyStrip raw)
      = (pyStrip raw).drop ((pyStrip raw).length - 1) := by
    unfold extractStepTwo
    rw [hsw, if_neg (by simp), hfind, pySliceFrom_neg_one]
  rw [hstep2]
  cases hsp : pyStrip raw with
  | nil => left; rfl
  | cons a as =>
    obtain ⟨c, hcmem, hcdrop⟩ := drop_length_sub_one (a :: as) (by simp)
    rw [hcdrop]
    by_cases hc : c = '\x7d'
    · right
      subst hc
      unfold extractStepThree
      rw [if_pos (by rfl)]
    · left
      unfold extractStepThree
      have hwe : pyEndsWith [c] '\x7d' = false := by
        have hc2 : ¬('\x7d' = c) := fun e => hc e.symm
        simp [pyEndsWith, pyStartsWith, hc, hc2]
      rw [hwe, if_neg (by simp)]
      have hrf : pyRFind [c] '\x7d' = -1 := by
        have hc2 : '\x7d' ∉ ([c] : List Char) := by
          simp only [List.mem_singleton]
          exact fun e => hc e.symm
        unfold pyRFind
        rw [show ([c] : List Char).reverse = [c] from rfl,
          pyFind_not_mem [c] '\x7d' hc2]
        rfl
      rw [hrf]
      rfl

/-! ## Claim C6 -/

/-- Claim C6 (amended): for the spec's noisy payload — all required fields
present, `fraud_score = 150` out of range, `risk_level = "banana"` outside
the enum — wrapped in any leading garbage containing no `\x7b` and any
trailing garbage containing no `\x7d`, the parse succeeds, clamps the score
to 100, coerces the risk level to the parser's conservative default
`medium`, and preserves the explanation text unchanged.  The brace-freeness
conditions are necessary: garbage containing braces derails the naive
`find`/`rfind` slicing (see the counterexample). -/
theorem parse_noisy_wrapped (g1 g2 : List Char)
    (h1 : '\x7b' ∉ g1) (h2 : '\x7d' ∉ g2) :
    parseAiResponse (g1 ++ objNoisy ++ g2) = some aiNoisy := by
  unfold parseAiResponse objNoisy
  rw [show g1 ++ ('\x7b' :: objMid ++ ['\x7d']) ++ g2
      = g1 ++ ('\x7b' :: objMid ++ ['\x7d']) ++ g2 from rfl]
  rw [extractJson_wrapped g1 g2 objMid h1 h2]
  rfl

/-- Witness for `parse_noisy_wrapped`: the spec's own garbage text. -/
theorem parse_noisy_wrapped_witness :
    parseAiResponse ("garbage".toList ++ objNoisy ++ "trailing".toList)
      = some aiNoisy :=
  parse_noisy_wrapped "garbage".toList "trailing".toList (by decide)
    (by decide)

/-- Claim C6 counterexample: the same noisy object with all required fields
present, wrapped in the leading garbage `"x\x7b"` (which contains a brace)
and trailing garbage `"y"`, fails to parse — so the claim is false for
arbitrary garbage text, while the object alone still parses. -/
theorem parse_noisy_wrapped_cex :
    parseAiResponse ("x\x7b".toList ++ objNoisy ++ "y".toList) = none
      ∧ parseAiResponse objNoisy = some aiNoisy :=
  ⟨rfl, rfl⟩

/-! ## Claim C10 -/

/-- Claim C10 (confirmed): a raw response containing no `\x7b` character —
the empty string included — never yields a parsed advisory verdict: both the
fraud parser and the credit parser fail on it (the extraction collapses the
input to at most one character, which never decodes). -/
theorem parse_no_brace_fails (raw : List Char) (h : '\x7b' ∉ raw) :
    parseAiResponse raw = none ∧ parseCreditResponse raw = none := by
  have hd : jsonDecode (extractJson raw) = none := by
    rcases extractJson_no_brace raw h with hx | hx <;> rw [hx] <;> rfl
  exact ⟨by simp [parseAiResponse, hd, parseAiFromJson],
    by simp [parseCreditResponse, hd, parseCreditFromJson]⟩

/-- Witness for `parse_no_brace_fails`, at a concrete brace-free response. -/
theorem parse_no_brace_fails_witness :
    parseAiResponse rawNoBrace = none
      ∧ parseCreditResponse rawNoBrace = none :=
  parse_no_brace_fails rawNoBrace (by decide)

/-- Witness for `scores_in_range`: the benign transaction combined with the
verdict parsed from `rawOk`. -/
theorem scores_in_range_witness :
    (0 ≤ (ruleBasedAnalysis tGrocery nowNoonMon).fraud_score
        ∧ (ruleBasedAnalysis tGrocery nowNoonMon).fraud_score ≤ 100)
      ∧ (0 ≤ aiOk.fraud_score ∧ aiOk.fraud_score ≤ 100)
      ∧ (0 ≤ (combineAiAndRules aiOk
            (ruleBasedAnalysis tGrocery nowNoonMon)).fraud_score
          ∧ (combineAiAndRules aiOk
              (ruleBasedAnalysis tGrocery nowNoonMon)).fraud_score ≤ 100) :=
  scores_in_range tGrocery nowNoonMon rawOk aiOk rfl

end HybridEngine
